import Mathlib

/-!
Shallow embedding of the ADORe `OptiNLCTrajectoryPlanner`
(`src/optinlc_trajectory_planner.cpp`) and verification of the spec's claims.

Numbers are modelled over `ℚ`.  The C++ code computes in IEEE double
precision; every claim checked here is structural (control flow, min/max
composition, ordering, counter arithmetic), so the claims are settled over an
exact numeric field.  Library primitives that are external collaborators of
this core (cubic-spline smoother/evaluator, route projections, `sqrt`, trig,
`atan2`, the OptiNLC solver) are parameters of the embedded functions: each
embedded definition mirrors the source's own statements and receives the
collaborators' results exactly at the call sites where the source invokes
them.
-/

/-- A planar point (`math::Point2d`). -/
structure Point2d where
  x : ℚ := 0
  y : ℚ := 0
deriving DecidableEq, Inhabited

/-- One sample of `dynamics::VehicleStateDynamic` as used by the planner. -/
structure VehicleStateDynamic where
  x : ℚ := 0
  y : ℚ := 0
  yaw_angle : ℚ := 0
  vx : ℚ := 0
  steering_angle : ℚ := 0
  steering_rate : ℚ := 0
  yaw_rate : ℚ := 0
  ax : ℚ := 0
  time : ℚ := 0
deriving DecidableEq, Inhabited

/-- `dynamics::Trajectory`: an ordered sequence of state samples. -/
structure Trajectory where
  states : List VehicleStateDynamic := []
deriving DecidableEq, Inhabited

/-- A fitted smoothing spline as seen by this core: only its breakpoint
sequence is inspected by the planner (`route_x.breaks.size()`); coefficients
live behind the external evaluation primitives. -/
structure PiecewisePolynomial where
  breaks : List ℚ := []
deriving DecidableEq, Inhabited

/-- `route_to_piecewise_polynomial`: the Reference Path, three splines over
arc length. -/
structure route_to_piecewise_polynomial where
  x : PiecewisePolynomial := {}
  y : PiecewisePolynomial := {}
  heading : PiecewisePolynomial := {}
deriving DecidableEq, Inhabited

/-- The `route_to_follow` member: the downsampled ego-relative sample
sequences the splines are fitted to. -/
structure RouteToFollow where
  s : List ℚ := []
  x : List ℚ := []
  y : List ℚ := []
  psi : List ℚ := []
deriving DecidableEq, Inhabited

/-- Planner configuration members.  The class header declaring these members
(and their numeric values) is not among the given sources, so every claim is
proved for arbitrary parameter values; the field defaults below are merely
convenient values for concrete instantiations in witnesses. -/
structure PlannerParams where
  wheelbase : ℚ := 27/10
  lateral_weight : ℚ := 1
  heading_weight : ℚ := 1
  maximum_velocity : ℚ := 10
  min_distance_to_vehicle_ahead : ℚ := 8
  max_forward_speed : ℚ := 13
  max_reverse_speed : ℚ := -2
  max_steering_velocity : ℚ := 1
  threshold_bad_output : ℚ := 100
  sim_time : ℚ := 3
  control_points : Nat := 30
  min_distance_in_route : ℚ := 5
  lateral_acceleration : ℚ := 2
  minimum_velocity_in_curve : ℚ := 2
  lookahead_time : ℚ := 2
  safe_index : Int := 5
  desired_time_headway : ℚ := 1
  front_vehicle_velocity : ℚ := 0
  max_acceleration : ℚ := 2
  max_deceleration : ℚ := 2
  position_smoothing_factor : ℚ := 1
  heading_smoothing_factor : ℚ := 1
deriving DecidableEq

/-- `options.timeStep = sim_time / control_points` (source line 31). -/
def optTimeStep (p : PlannerParams) : ℚ :=
  p.sim_time / (p.control_points : ℚ)

/-- External cubic-spline primitives (`pp.*`), out of scope of this core: the
embedded functions are parametric in them and call them exactly where the
source does. -/
structure SplineOps where
  CubicSplineSmoother : List ℚ → List ℚ → List ℚ → ℚ → PiecewisePolynomial
  CubicSplineEvaluation : List ℚ → PiecewisePolynomial → List ℚ × List ℚ
  findIndex : ℚ → PiecewisePolynomial → Int
  splineEvaluation : Int → ℚ → PiecewisePolynomial → ℚ

/-- Double-precision math primitives used by the source, treated as
uninterpreted functions over the embedding field. -/
structure MathOps where
  sqrtQ : ℚ → ℚ
  cosQ : ℚ → ℚ
  sinQ : ℚ → ℚ
  tanQ : ℚ → ℚ
  atan2Q : ℚ → ℚ → ℚ

/-- The center-lane downsampling loop of `setup_optimizer_parameters_using_route`
(source lines 314-330): samples behind the vehicle are skipped (`continue`),
the loop stops past the horizon length (`break`), and a sample is kept exactly
when its ego-relative progress exceeds the previously kept progress by more
than 0.75. -/
def downsample (state_s max_len : ℚ) : ℚ → List (ℚ × Point2d) → List (ℚ × Point2d)
  | _, [] => []
  | previous_s, (s, point) :: rest =>
    if s < state_s then downsample state_s max_len previous_s rest
    else if s - state_s > max_len then []
    else if s - state_s - previous_s > 0.75 then
      (s - state_s, point) :: downsample state_s max_len (s - state_s) rest
    else downsample state_s max_len previous_s rest

/-- Overwriting of the first kept arc-length sample with 0 (source line 336). -/
def pinFirst : List ℚ → List ℚ
  | [] => []
  | _ :: t => 0 :: t

/-- `setup_optimizer_parameters_using_route` (source lines 285-360).  The
route's projection `latest_route.get_s(current_state)` is passed in as
`state_s`; the previous cycle's `route_to_follow` member is `prev_rtf`
(returned untouched by the two early returns, which precede the member's
clearing in the source).  `clock_start`/`clock_end` are the two
`high_resolution_clock` readings; they feed only the unused elapsed-time
local.  Note on the success branch: the source's final heading write
`psi[s.size()-1] = psi[s.size()-2]` indexes one past the end of `psi`
(which holds `s.size()-1` entries), modelled by a `List.set` at an
out-of-range index (a no-op). -/
def setup_optimizer_parameters_using_route (p : PlannerParams) (ops : SplineOps)
    (m : MathOps) (center_lane : List (ℚ × Point2d)) (state_s : ℚ)
    (prev_rtf : RouteToFollow) (clock_start clock_end : ℚ) :
    route_to_piecewise_polynomial × RouteToFollow :=
  let _start_time := clock_start
  let route : route_to_piecewise_polynomial := {}
  let maximum_required_road_length := p.sim_time * p.max_forward_speed
  if maximum_required_road_length < p.min_distance_in_route then (route, prev_rtf)
  else if center_lane = [] then (route, prev_rtf)
  else
    let kept := downsample state_s maximum_required_road_length 0 center_lane
    let s0 := kept.map Prod.fst
    let xs := kept.map (fun q => q.2.x)
    let ys := kept.map (fun q => q.2.y)
    let w : List ℚ := kept.map (fun _ => 1)
    if s0.length < 3 then (route, { s := s0, x := xs, y := ys, psi := [] })
    else
      let s1 := pinFirst s0
      let routeX := ops.CubicSplineSmoother s1 xs w p.position_smoothing_factor
      let routeY := ops.CubicSplineSmoother s1 ys w p.position_smoothing_factor
      let dx := (ops.CubicSplineEvaluation s1 routeX).2
      let dy := (ops.CubicSplineEvaluation s1 routeY).2
      if (List.range (s1.length - 1)).any (fun i => dx.getD i 0 == 0)
          || dx.length < 1 || dy.length < 1 then
        let firstBad :=
          ((List.range (s1.length - 1)).filter (fun i => dx.getD i 0 == 0)).headD
            (s1.length - 1)
        let psi := (List.range firstBad).map (fun i => m.atan2Q (dy.getD i 0) (dx.getD i 0))
        ({ x := routeX, y := routeY, heading := {} },
         { s := s1, x := xs, y := ys, psi := psi })
      else
        let psi := (List.range (s1.length - 1)).map (fun i => m.atan2Q (dy.getD i 0) (dx.getD i 0))
        let psiFinal := psi.set (s1.length - 1) (psi.getD (s1.length - 2) 0)
        let routeHeading := ops.CubicSplineSmoother s1 psiFinal w p.heading_smoothing_factor
        let _elapsed_seconds := clock_end - clock_start
        ({ x := routeX, y := routeY, heading := routeHeading },
         { s := s1, x := xs, y := ys, psi := psiFinal })

/-- Largest finite IEEE double (`std::numeric_limits<double>::max()`),
the sentinel initial value of `distance_to_object_min`. -/
def dblMax : ℚ := 2 ^ 1024 - 2 ^ 971

/-- The per-participant data `calculate_idm_velocity` obtains from the
external route/map queries before its in-lane test (source lines 410-425):
`s_on_route = latest_route.get_s(object_position)`, `offset` the planar
distance to the route pose at that arc length, and `lane_width` the owning
lane's width there. -/
structure IdmParticipant where
  s_on_route : ℚ := 0
  offset : ℚ := 0
  lane_width : ℚ := 0
deriving DecidableEq, Inhabited

/-- The participant scan of `calculate_idm_velocity` (source lines 404-425):
minimum ego-relative distance over in-lane participants, starting from the
`DBL_MAX` sentinel. -/
def idm_distance_to_object_min (state_s : ℚ) (parts : List IdmParticipant) : ℚ :=
  parts.foldl
    (fun acc q =>
      let distance_to_object := q.s_on_route - state_s
      if q.offset < q.lane_width && distance_to_object < acc then distance_to_object
      else acc)
    dblMax

/-- `distance_for_idm = min(distance_to_object_min, distance_to_goal)`
(source lines 427-429), with `distance_to_goal = route_length - state_s`. -/
def idm_distance_for_idm (state_s route_length : ℚ) (parts : List IdmParticipant) : ℚ :=
  min (idm_distance_to_object_min state_s parts) (route_length - state_s)

/-- `calculate_idm_velocity` (source lines 400-447).  `vx` is
`current_state.vx`, `state_s = latest_route.get_s(current_state)`,
`route_length = latest_route.get_length()`.  The division
`s_star / distance_for_idm` is performed with no guard against a zero
denominator, exactly as in the source (over `ℚ` a zero denominator yields 0
where IEEE doubles yield an infinity). -/
def calculate_idm_velocity (p : PlannerParams) (m : MathOps) (vx state_s route_length : ℚ)
    (parts : List IdmParticipant) : ℚ :=
  let distance_to_object_min := idm_distance_to_object_min state_s parts
  let distance_to_goal := route_length - state_s
  let distance_for_idm := min distance_to_object_min distance_to_goal
  let distance_to_maintain_ahead :=
    if distance_to_goal < distance_to_object_min then p.wheelbase / 2
    else p.min_distance_to_vehicle_ahead
  let s_star := distance_to_maintain_ahead + vx * p.desired_time_headway
    + vx * (vx - p.front_vehicle_velocity) / (2 * m.sqrtQ (p.max_acceleration * p.max_deceleration))
  let velocity_ratio := vx / p.maximum_velocity
  let idm_velocity := vx
    + p.max_acceleration
      * (1 - velocity_ratio * velocity_ratio * velocity_ratio * velocity_ratio
         - (s_star / distance_for_idm) * (s_star / distance_for_idm))
  max 0 (min idm_velocity p.max_forward_speed)

/-- The curvature-limited velocity bound of `setup_reference_velocity`
(source lines 368-381): curvature samples `|dpsi[i] / (s[i+1] - s[i])|` up to
the (clamped) lookahead index, their maximum, then
`max(sqrt(lateral_acceleration / max_curvature), minimum_velocity_in_curve)`.
The source takes `max_element` of the curvature list without an emptiness
guard (undefined behavior when `index <= 0`); the embedding uses the list
maximum with a default of 0 for the empty list, and every theorem touching
this value assumes the index positive. -/
def curvature_velocity_bound (p : PlannerParams) (ops : SplineOps) (m : MathOps)
    (route_x route_heading : PiecewisePolynomial) (route_to_follow_s : List ℚ)
    (vx : ℚ) : ℚ :=
  let index := max (ops.findIndex (p.lookahead_time * vx) route_x) p.safe_index
  let dpsi := (ops.CubicSplineEvaluation route_to_follow_s route_heading).2
  let curvature := (List.range index.toNat).map
    (fun i => |dpsi.getD i 0 / (route_to_follow_s.getD (i + 1) 0 - route_to_follow_s.getD i 0)|)
  let max_curvature := curvature.max?.getD 0
  max (m.sqrtQ (p.lateral_acceleration / max_curvature)) p.minimum_velocity_in_curve

/-- `setup_reference_velocity` (source lines 362-398): start from the
configured maximum, clamp by the curvature bound, then by the IDM bound, and
finally by the map speed limit of the nearest map point when one exists.
`nearest_speed_limit` is `some limit` when the quadtree query returns a point
(`limit` the parent lane's speed limit), `none` otherwise. -/
def setup_reference_velocity (p : PlannerParams) (ops : SplineOps) (m : MathOps)
    (route_x route_heading : PiecewisePolynomial) (route_to_follow_s : List ℚ)
    (vx state_s route_length : ℚ) (parts : List IdmParticipant)
    (nearest_speed_limit : Option ℚ) : ℚ :=
  let reference_velocity := p.maximum_velocity
  let curvature_velocity := curvature_velocity_bound p ops m route_x route_heading route_to_follow_s vx
  let reference_velocity := min reference_velocity curvature_velocity
  let idm_velocity := calculate_idm_velocity p m vx state_s route_length parts
  let reference_velocity := min reference_velocity idm_velocity
  match nearest_speed_limit with
  | some current_route_point_max_speed => min reference_velocity current_route_point_max_speed
  | none => reference_velocity

/-- State-channel indices of the flat solver state vector (the source's enum
`{X, Y, PSI, V, DELTA, dDELTA, S, L}`, in the order of `initial_state`). -/
def iX : Nat := 0

/-- Channel index of the Y position. -/
def iY : Nat := 1

/-- Channel index of the heading `PSI`. -/
def iPSI : Nat := 2

/-- Channel index of the longitudinal velocity `V`. -/
def iV : Nat := 3

/-- Channel index of the steering angle `DELTA`. -/
def iDELTA : Nat := 4

/-- Channel index of the steering rate `dDELTA`. -/
def idDELTA : Nat := 5

/-- Channel index of the progress `S`. -/
def iS : Nat := 6

/-- Channel index of the accumulated cost `L`. -/
def iL : Nat := 7

/-- Number of state channels (`state_size`). -/
def state_size : Nat := 8

/-- What `plan_trajectory` retrieves from the external OptiNLC solver
(source lines 160-162): the flat optimal-state vector
(`opt_x[i * state_size + channel]`), the sample timestamps, and the final
objective value.  The solver is an external collaborator; its outputs are
free parameters of the embedding. -/
structure SolverOutput where
  opt_x : Nat → ℚ
  time : Nat → ℚ
  last_objective_function : ℚ

/-- The bad-sample test of the validation scan (source lines 171-172) at
horizon sample `i`. -/
def badSample (p : PlannerParams) (sol : SolverOutput) (i : Nat) : Bool :=
  decide (sol.last_objective_function > p.threshold_bad_output)
  || decide (sol.opt_x (i * state_size + iV) > p.max_forward_speed)
  || decide (sol.opt_x (i * state_size + iV) < p.max_reverse_speed)
  || decide (|sol.opt_x (i * state_size + idDELTA)| > p.max_steering_velocity)

/-- The validation scan (source lines 169-178): `bad_condition` is set iff
some horizon sample is bad; the source breaks at the first such sample, so
`bad_counter` is incremented at most once per cycle. -/
def badCondition (p : PlannerParams) (sol : SolverOutput) : Bool :=
  (List.range p.control_points).any (badSample p sol)

/-- The final-sample fix-up (source lines 198-199): the last sample's yaw
rate and acceleration are overwritten with the second-to-last sample's.  The
source indexes `states[control_points - 1]` and `states[control_points - 2]`
unconditionally (undefined behavior when fewer than 2 samples exist); the
embedding leaves shorter lists unchanged. -/
def fixLast (l : List VehicleStateDynamic) : List VehicleStateDynamic :=
  match l.get? (l.length - 2), l.get? (l.length - 1) with
  | some s2, some sl =>
    l.set (l.length - 1) { sl with yaw_rate := s2.yaw_rate, ax := s2.ax }
  | _, _ => l

/-- One iteration of the trajectory-extraction loop of `plan_trajectory`
(source lines 181-197): the sample at control point `i`, populated from the
solved state vector and time samples, with forward-difference yaw rate and
acceleration for all but the last sample (whose derived rates are left at
their defaults until the final-sample fix-up). -/
def extractSample (p : PlannerParams) (sol : SolverOutput) (i : Nat) : VehicleStateDynamic :=
  { x := sol.opt_x (i * state_size + iX)
    y := sol.opt_x (i * state_size + iY)
    yaw_angle := sol.opt_x (i * state_size + iPSI)
    vx := sol.opt_x (i * state_size + iV)
    steering_angle := sol.opt_x (i * state_size + iDELTA)
    steering_rate := sol.opt_x (i * state_size + idDELTA)
    time := sol.time i
    yaw_rate :=
      if i < p.control_points - 1 then
        (sol.opt_x ((i + 1) * state_size + iPSI) - sol.opt_x (i * state_size + iPSI))
          / optTimeStep p
      else 0
    ax :=
      if i < p.control_points - 1 then
        (sol.opt_x ((i + 1) * state_size + iV) - sol.opt_x (i * state_size + iV))
          / optTimeStep p
      else 0 }

/-- The trajectory-extraction loop of `plan_trajectory` (source lines
180-199): one `VehicleStateDynamic` per control point, then the final-sample
fix-up. -/
def extractTrajectory (p : PlannerParams) (sol : SolverOutput) : Trajectory :=
  { states := fixLast ((List.range p.control_points).map (extractSample p sol)) }

/-- The planner's persistent cross-cycle state (spec section 3): the fallback
trajectory, the consecutive-failure counter, the scalar reference velocity
and the stored reference-path splines. -/
structure PlannerState where
  previous_trajectory : Trajectory := {}
  bad_counter : Nat := 0
  reference_velocity : ℚ := 0
  route_x : PiecewisePolynomial := {}
  route_y : PiecewisePolynomial := {}
  route_heading : PiecewisePolynomial := {}
deriving DecidableEq, Inhabited

/-- `plan_trajectory` (source lines 119-216) as a state transition on the
persistent planner state, returning the produced trajectory and the updated
state.  `reference_route` is the value of the builder call at line 124;
`new_reference_velocity` is the value `setup_reference_velocity` stores at
line 146 (both are separately embedded above; the orchestration consumes
their results).  `sol` is the external solver's output and
`clock_start`/`clock_end` are the two `high_resolution_clock` readings, which
feed only the unused `elapsed_seconds` local.  Control flow mirrors the
source: splines are stored (line 137) before the no-route check (line 138);
the `bad_counter > 4` reset (lines 165-168) precedes the validation scan; the
acceptance test is `bad_condition == false && bad_counter < 5` (line 206). -/
def plan_trajectory (p : PlannerParams) (st : PlannerState)
    (reference_route : route_to_piecewise_polynomial) (new_reference_velocity : ℚ)
    (sol : SolverOutput) (clock_start clock_end : ℚ) :
    Trajectory × PlannerState :=
  let _start_time := clock_start
  let st := { st with
    route_x := reference_route.x
    route_y := reference_route.y
    route_heading := reference_route.heading }
  if st.route_x.breaks.length < 1 then
    let empty_trajectory : Trajectory := {}
    (empty_trajectory, st)
  else
    let st := { st with reference_velocity := new_reference_velocity }
    let bad_counter := if st.bad_counter > 4 then 0 else st.bad_counter
    let bad_condition := badCondition p sol
    let bad_counter := if bad_condition then bad_counter + 1 else bad_counter
    let planned_trajectory := extractTrajectory p sol
    let _elapsed_seconds := clock_end - clock_start
    if bad_condition == false && bad_counter < 5 then
      (planned_trajectory,
       { st with previous_trajectory := planned_trajectory, bad_counter := 0 })
    else
      (st.previous_trajectory, { st with bad_counter := bad_counter })

/-- A state vector of the dynamic model, with the named channels of the
source's enum. -/
structure ModelState where
  x : ℚ := 0
  y : ℚ := 0
  psi : ℚ := 0
  v : ℚ := 0
  delta : ℚ := 0
  dDelta : ℚ := 0
  s : ℚ := 0
  l : ℚ := 0
deriving DecidableEq, Inhabited

/-- The dynamic-model derivative callback installed by `setup_dynamic_model`
(source lines 218-268), as a function of the captured planner state
(reference splines, `reference_velocity`, weights) and of the solver-supplied
(state, input) point.  `tau` is chosen per evaluation from the sign of the
velocity error; the reference point is the spline evaluation at the state's
progress channel. -/
def dynamic_model_derivative (p : PlannerParams) (ops : SplineOps) (m : MathOps)
    (route_x route_y route_heading : PiecewisePolynomial)
    (reference_velocity : ℚ) (state : ModelState) (input : ℚ) : ModelState :=
  let tau : ℚ := if reference_velocity - state.v > 0 then 5/2 else 5/4
  let dX := state.v * m.cosQ state.psi
  let dY := state.v * m.sinQ state.psi
  let dPSI := state.v * m.tanQ state.delta / p.wheelbase
  let dV := (1 / tau) * (reference_velocity - state.v)
  let dDELTA := state.dDelta
  let ddDELTA := input
  let dS := state.v
  let index := ops.findIndex state.s route_x
  let reference_x := ops.splineEvaluation index state.s route_x
  let reference_y := ops.splineEvaluation index state.s route_y
  let reference_heading := ops.splineEvaluation index state.s route_heading
  let dx := state.x - reference_x
  let dy := state.y - reference_y
  let cos_yaw := m.cosQ reference_heading
  let sin_yaw := m.sinQ reference_heading
  let lateral_cost := -dx * sin_yaw + dy * cos_yaw
  let lateral_cost := lateral_cost * (lateral_cost * p.lateral_weight)
  let heading_cost := m.atan2Q (-sin_yaw * m.cosQ state.psi + cos_yaw * m.sinQ state.psi)
    (cos_yaw * m.cosQ state.psi + sin_yaw * m.sinQ state.psi)
  let heading_cost := heading_cost * (heading_cost * p.heading_weight)
  { x := dX, y := dY, psi := dPSI, v := dV, delta := dDELTA, dDelta := ddDELTA,
    s := dS, l := lateral_cost + heading_cost }

/-- Modelled from the spec: the OptiNLC solver's time samples.  The solver
(`solver.getTime()`, not part of the given sources) returns, per spec
sections 3 and 4.5, sample timestamps evenly spaced by the configured
`options.timeStep`, starting at the initial time `t0 = current_state.time`
passed to `solver.solve`. -/
def solverTimeGrid (p : PlannerParams) (t0 : ℚ) : Nat → ℚ :=
  fun i => t0 + (i : ℚ) * optTimeStep p

/-- The trajectory shape invariant of the spec (sections 3 and 8): exactly
`control_points` samples, timestamps strictly increasing and spaced by the
configured time step, and the final sample's yaw rate and longitudinal
acceleration equal to the second-to-last sample's. -/
def TrajOK (p : PlannerParams) (T : Trajectory) : Prop :=
  T.states.length = p.control_points ∧
  (∀ i, i + 1 < T.states.length →
    (T.states.getD (i + 1) default).time = (T.states.getD i default).time + optTimeStep p ∧
    (T.states.getD i default).time < (T.states.getD (i + 1) default).time) ∧
  (T.states.getD (T.states.length - 1) default).yaw_rate
    = (T.states.getD (T.states.length - 2) default).yaw_rate ∧
  (T.states.getD (T.states.length - 1) default).ax
    = (T.states.getD (T.states.length - 2) default).ax

/-- Concrete planner parameters for witnesses and counterexamples: a
2-sample horizon with time step 1 and a bad-output threshold of 1. -/
def testParams : PlannerParams :=
  { control_points := 2, sim_time := 2, threshold_bad_output := 1,
    max_forward_speed := 10, max_reverse_speed := -2, max_steering_velocity := 1 }

/-- Concrete spline primitives for witnesses: the smoother returns its knots
as breakpoints; evaluation returns zero values and unit first derivatives. -/
def testOps : SplineOps :=
  { CubicSplineSmoother := fun s _ _ _ => { breaks := s },
    CubicSplineEvaluation := fun s _ => (s.map (fun _ => 0), s.map (fun _ => 1)),
    findIndex := fun _ _ => 1,
    splineEvaluation := fun _ _ _ => 0 }

/-- Concrete math primitives for witnesses. -/
def testMath : MathOps :=
  { sqrtQ := fun q => q, cosQ := fun _ => 1, sinQ := fun _ => 0,
    tanQ := fun _ => 0, atan2Q := fun _ _ => 0 }

/-- A reference route whose x spline has a breakpoint, so the no-route early
return is not taken. -/
def refRouteNonempty : route_to_piecewise_polynomial :=
  { x := { breaks := [0] } }

/-- A solver output classified bad under `testParams`: its final objective 2
exceeds the threshold 1 (all state samples are 0, inside every bound). -/
def solverBad : SolverOutput :=
  { opt_x := fun _ => 0, time := fun i => (i : ℚ), last_objective_function := 2 }

/-- A solver output accepted under `testParams`: objective 0 and all state
samples 0. -/
def solverGood : SolverOutput :=
  { opt_x := fun _ => 0, time := fun i => (i : ℚ), last_objective_function := 0 }

/-- A non-empty marker trajectory standing for an earlier accepted output. -/
def markerTrajectory : Trajectory :=
  { states := [{ x := 42 }] }

/-- A solver output accepted under `testParams` whose time samples lie on the
spec-modelled uniform grid starting at time 5. -/
def solverGridGood : SolverOutput :=
  { opt_x := fun _ => 0, time := solverTimeGrid testParams 5, last_objective_function := 0 }

/-- One planning cycle with a bad solver output under the concrete fixtures,
as a transition on the persistent state. -/
def badCycleStep (st : PlannerState) : PlannerState :=
  (plan_trajectory testParams st refRouteNonempty 0 solverBad 0 0).2

/-- The persistent state reached after five consecutive bad cycles from a
state holding a non-empty accepted trajectory. -/
def stAfterFiveBad : PlannerState :=
  badCycleStep^[5] { previous_trajectory := markerTrajectory }

/-- The concrete desired gap of the C5 input: the goal is nearer than any
object (there are none), so the following distance is half the wheelbase. -/
def c5_s_star : ℚ :=
  testParams.wheelbase / 2 + 1 * testParams.desired_time_headway
    + 1 * (1 - testParams.front_vehicle_velocity)
      / (2 * testMath.sqrtQ (testParams.max_acceleration * testParams.max_deceleration))

/-- A short route: three center-lane samples at arc lengths 1, 2, 3, far
shorter than the horizon distance `sim_time * max_forward_speed = 20` of
`testParams`. -/
def shortCenterLane : List (ℚ × Point2d) := [(1, {}), (2, {}), (3, {})]

/-- The post-reset value of `bad_counter` (source lines 165-168) is always
below 5. -/
theorem post_reset_lt_five (c : Nat) : (if c > 4 then 0 else c) < 5 := by
  split
  · omega
  · omega

/-- `fixLast` preserves the number of samples. -/
theorem fixLast_length (l : List VehicleStateDynamic) : (fixLast l).length = l.length := by
  unfold fixLast
  split
  · simp
  · rfl

/-- The extracted trajectory always has exactly `control_points` samples. -/
theorem extractTrajectory_length (p : PlannerParams) (sol : SolverOutput) :
    (extractTrajectory p sol).states.length = p.control_points := by
  simp [extractTrajectory, fixLast_length]

/-- Branch analysis of `plan_trajectory`: the no-route early return (source
lines 138-143) returns an empty trajectory and changes only the stored
splines. -/
theorem plan_trajectory_noRoute (p : PlannerParams) (st : PlannerState)
    (rr : route_to_piecewise_polynomial) (nrv : ℚ) (sol : SolverOutput) (c1 c2 : ℚ)
    (h : rr.x.breaks = []) :
    plan_trajectory p st rr nrv sol c1 c2 =
      ({}, { st with route_x := rr.x, route_y := rr.y, route_heading := rr.heading }) := by
  simp [plan_trajectory, h]

/-- Branch analysis of `plan_trajectory`: with a valid route and a bad solver
result, the stored previous trajectory is returned and kept, and the counter
becomes its post-reset value plus one. -/
theorem plan_trajectory_bad (p : PlannerParams) (st : PlannerState)
    (rr : route_to_piecewise_polynomial) (nrv : ℚ) (sol : SolverOutput) (c1 c2 : ℚ)
    (hroute : rr.x.breaks ≠ []) (hbad : badCondition p sol = true) :
    plan_trajectory p st rr nrv sol c1 c2 =
      (st.previous_trajectory,
       { st with route_x := rr.x, route_y := rr.y, route_heading := rr.heading,
                 reference_velocity := nrv,
                 bad_counter := (if st.bad_counter > 4 then 0 else st.bad_counter) + 1 }) := by
  simp [plan_trajectory, hroute, hbad, List.length_eq_zero]

/-- Branch analysis of `plan_trajectory`: with a valid route and a good
solver result, the freshly extracted trajectory is returned and stored and
the counter is reset to 0 (the `bad_counter < 5` conjunct of the acceptance
test always holds after the entry reset). -/
theorem plan_trajectory_good (p : PlannerParams) (st : PlannerState)
    (rr : route_to_piecewise_polynomial) (nrv : ℚ) (sol : SolverOutput) (c1 c2 : ℚ)
    (hroute : rr.x.breaks ≠ []) (hgood : badCondition p sol = false) :
    plan_trajectory p st rr nrv sol c1 c2 =
      (extractTrajectory p sol,
       { st with route_x := rr.x, route_y := rr.y, route_heading := rr.heading,
                 reference_velocity := nrv,
                 previous_trajectory := extractTrajectory p sol, bad_counter := 0 }) := by
  simp [plan_trajectory, hroute, hgood, List.length_eq_zero, post_reset_lt_five]

/-- C1 counterexample: starting from the initial state, five consecutive bad
cycles drive `bad_counter` to 5; the sixth cycle is again classified bad
(valid route, objective above threshold), yet `bad_counter` ends at 1, not at
5 + 1 — the entry reset at `bad_counter > 4` breaks the claimed
increment-by-exactly-1. -/
theorem C1_counterexample :
    refRouteNonempty.x.breaks ≠ [] ∧
    badCondition testParams solverBad = true ∧
    (badCycleStep^[5] {}).bad_counter = 5 ∧
    (badCycleStep^[6] {}).bad_counter = 1 ∧
    ¬ (badCycleStep^[6] {}).bad_counter = (badCycleStep^[5] {}).bad_counter + 1 := by
  decide

/-- C1 (amended): for every cycle with a usable route whose solver result is
classified bad, `plan_trajectory` returns the stored `previous_trajectory`
unchanged — it is not overwritten with the bad result — and `bad_counter`
becomes its post-reset value plus 1 (entry value + 1 when the entry value is
at most 4, and 1 after the reset when it exceeded 4). -/
theorem C1_amended_theorem (p : PlannerParams) (st : PlannerState)
    (rr : route_to_piecewise_polynomial) (nrv : ℚ) (sol : SolverOutput) (c1 c2 : ℚ)
    (hroute : rr.x.breaks ≠ []) (hbad : badCondition p sol = true) :
    (plan_trajectory p st rr nrv sol c1 c2).1 = st.previous_trajectory ∧
    (plan_trajectory p st rr nrv sol c1 c2).2.previous_trajectory = st.previous_trajectory ∧
    (plan_trajectory p st rr nrv sol c1 c2).2.bad_counter
      = (if st.bad_counter > 4 then 0 else st.bad_counter) + 1 := by
  rw [plan_trajectory_bad p st rr nrv sol c1 c2 hroute hbad]
  exact ⟨rfl, rfl, rfl⟩

/-- C1 witness: the amended statement evaluated on the concrete fixtures. -/
theorem C1_amended_witness :
    (plan_trajectory testParams {} refRouteNonempty 0 solverBad 0 0).1
      = ({} : PlannerState).previous_trajectory ∧
    (plan_trajectory testParams {} refRouteNonempty 0 solverBad 0 0).2.previous_trajectory
      = ({} : PlannerState).previous_trajectory ∧
    (plan_trajectory testParams {} refRouteNonempty 0 solverBad 0 0).2.bad_counter
      = (if ({} : PlannerState).bad_counter > 4 then 0 else ({} : PlannerState).bad_counter) + 1 :=
  C1_amended_theorem testParams {} refRouteNonempty 0 solverBad 0 0 (by decide) (by decide)

/-- C2 counterexample: after five consecutive bad solves the counter stands
at 5, and on the sixth consecutive bad cycle the bad solution is NOT accepted
— the stale fallback `markerTrajectory` is returned and kept as
`previous_trajectory`, and it differs from the trajectory extracted from that
cycle's (bad) solver output. -/
theorem C2_counterexample :
    stAfterFiveBad.bad_counter = 5 ∧
    badCondition testParams solverBad = true ∧
    (plan_trajectory testParams stAfterFiveBad refRouteNonempty 0 solverBad 0 0).1
      = markerTrajectory ∧
    (plan_trajectory testParams stAfterFiveBad refRouteNonempty 0 solverBad 0 0).2.previous_trajectory
      = markerTrajectory ∧
    ¬ markerTrajectory = extractTrajectory testParams solverBad := by
  decide

/-- C2 (amended): when `bad_counter` enters a cycle above 4 (after 5
consecutive bad solves), it is reset to 0 before that cycle's bad-condition
scan; a bad solution on that 6th consecutive bad cycle is still rejected (the
stale `previous_trajectory` is returned and kept and the counter ends at 1),
while the reset instead ensures that a good solution on that cycle is
accepted — returned and stored — rather than blocked by the
`bad_counter < 5` test. -/
theorem C2_amended_theorem (p : PlannerParams) (st : PlannerState)
    (rr : route_to_piecewise_polynomial) (nrv : ℚ) (sol : SolverOutput) (c1 c2 : ℚ)
    (hroute : rr.x.breaks ≠ []) (h5 : st.bad_counter > 4) :
    (badCondition p sol = true →
      (plan_trajectory p st rr nrv sol c1 c2).1 = st.previous_trajectory ∧
      (plan_trajectory p st rr nrv sol c1 c2).2.previous_trajectory = st.previous_trajectory ∧
      (plan_trajectory p st rr nrv sol c1 c2).2.bad_counter = 1) ∧
    (badCondition p sol = false →
      (plan_trajectory p st rr nrv sol c1 c2).1 = extractTrajectory p sol ∧
      (plan_trajectory p st rr nrv sol c1 c2).2.previous_trajectory = extractTrajectory p sol ∧
      (plan_trajectory p st rr nrv sol c1 c2).2.bad_counter = 0) := by
  constructor
  · intro hbad
    rw [plan_trajectory_bad p st rr nrv sol c1 c2 hroute hbad]
    refine ⟨rfl, rfl, ?_⟩
    simp [h5]
  · intro hgood
    rw [plan_trajectory_good p st rr nrv sol c1 c2 hroute hgood]
    exact ⟨rfl, rfl, rfl⟩

/-- C2 witness: the amended statement evaluated on the concrete fixtures at
the state reached after five consecutive bad solves. -/
theorem C2_amended_witness :
    (badCondition testParams solverBad = true →
      (plan_trajectory testParams stAfterFiveBad refRouteNonempty 0 solverBad 0 0).1
        = stAfterFiveBad.previous_trajectory ∧
      (plan_trajectory testParams stAfterFiveBad refRouteNonempty 0 solverBad 0 0).2.previous_trajectory
        = stAfterFiveBad.previous_trajectory ∧
      (plan_trajectory testParams stAfterFiveBad refRouteNonempty 0 solverBad 0 0).2.bad_counter = 1) ∧
    (badCondition testParams solverBad = false →
      (plan_trajectory testParams stAfterFiveBad refRouteNonempty 0 solverBad 0 0).1
        = extractTrajectory testParams solverBad ∧
      (plan_trajectory testParams stAfterFiveBad refRouteNonempty 0 solverBad 0 0).2.previous_trajectory
        = extractTrajectory testParams solverBad ∧
      (plan_trajectory testParams stAfterFiveBad refRouteNonempty 0 solverBad 0 0).2.bad_counter = 0) :=
  C2_amended_theorem testParams stAfterFiveBad refRouteNonempty 0 solverBad 0 0
    (by decide) (by decide)

/-- C3 counterexample: with a valid route (non-empty breakpoints) and a bad
solver result, a planner that has not yet accepted any trajectory returns an
empty (zero-sample) trajectory — so the empty return is not exclusive to the
no-route case, and a fallback return can be empty. -/
theorem C3_counterexample :
    refRouteNonempty.x.breaks ≠ [] ∧
    badCondition testParams solverBad = true ∧
    (plan_trajectory testParams {} refRouteNonempty 0 solverBad 0 0).1.states = [] := by
  decide

/-- C3 (amended): the no-route case returns an empty trajectory and leaves
`previous_trajectory` and `bad_counter` untouched; a bad solve returns the
stored `previous_trajectory`; and (for a positive horizon) the returned
trajectory is empty exactly when either there is no route, or the solve is
bad while no trajectory has ever been accepted (`previous_trajectory` still
empty). -/
theorem C3_amended_theorem (p : PlannerParams) (st : PlannerState)
    (rr : route_to_piecewise_polynomial) (nrv : ℚ) (sol : SolverOutput) (c1 c2 : ℚ)
    (hcp : 1 ≤ p.control_points) :
    (rr.x.breaks = [] →
      (plan_trajectory p st rr nrv sol c1 c2).1.states = [] ∧
      (plan_trajectory p st rr nrv sol c1 c2).2.previous_trajectory = st.previous_trajectory ∧
      (plan_trajectory p st rr nrv sol c1 c2).2.bad_counter = st.bad_counter) ∧
    (rr.x.breaks ≠ [] → badCondition p sol = true →
      (plan_trajectory p st rr nrv sol c1 c2).1 = st.previous_trajectory) ∧
    ((plan_trajectory p st rr nrv sol c1 c2).1.states = [] ↔
      (rr.x.breaks = [] ∨
       (badCondition p sol = true ∧ st.previous_trajectory.states = []))) := by
  by_cases hroute : rr.x.breaks = []
  · rw [plan_trajectory_noRoute p st rr nrv sol c1 c2 hroute]
    refine ⟨fun _ => ⟨rfl, rfl, rfl⟩, fun h => absurd hroute h, ?_⟩
    simp [hroute]
  · refine ⟨fun h => absurd h hroute, ?_, ?_⟩
    · intro _ hbad
      rw [plan_trajectory_bad p st rr nrv sol c1 c2 hroute hbad]
    · cases hbad : badCondition p sol with
      | true =>
        rw [plan_trajectory_bad p st rr nrv sol c1 c2 hroute hbad]
        simp [hroute]
      | false =>
        rw [plan_trajectory_good p st rr nrv sol c1 c2 hroute hbad]
        have hlen : (extractTrajectory p sol).states.length = p.control_points :=
          extractTrajectory_length p sol
        constructor
        · intro hempty
          rw [hempty] at hlen
          simp at hlen
          omega
        · rintro (h | ⟨h, _⟩)
          · exact absurd h hroute
          · exact absurd h (by simp [hbad])

/-- C3 witness: the amended statement evaluated on the concrete fixtures. -/
theorem C3_amended_witness :
    (refRouteNonempty.x.breaks = [] →
      (plan_trajectory testParams {} refRouteNonempty 0 solverBad 0 0).1.states = [] ∧
      (plan_trajectory testParams {} refRouteNonempty 0 solverBad 0 0).2.previous_trajectory
        = ({} : PlannerState).previous_trajectory ∧
      (plan_trajectory testParams {} refRouteNonempty 0 solverBad 0 0).2.bad_counter
        = ({} : PlannerState).bad_counter) ∧
    (refRouteNonempty.x.breaks ≠ [] → badCondition testParams solverBad = true →
      (plan_trajectory testParams {} refRouteNonempty 0 solverBad 0 0).1
        = ({} : PlannerState).previous_trajectory) ∧
    ((plan_trajectory testParams {} refRouteNonempty 0 solverBad 0 0).1.states = [] ↔
      (refRouteNonempty.x.breaks = [] ∨
       (badCondition testParams solverBad = true ∧
        ({} : PlannerState).previous_trajectory.states = []))) :=
  C3_amended_theorem testParams {} refRouteNonempty 0 solverBad 0 0 (by decide)

/-- C4: for every fixed input, the reference velocity computed by
`setup_reference_velocity` equals the minimum of all computed bounds — the
configured maximum velocity, the curvature-limited velocity (itself floored
at the minimum curve velocity inside `curvature_velocity_bound`), the IDM
bound, and, when a nearest map point exists, the map speed limit — and is
therefore always at most the configured maximum and at most each active
bound. -/
theorem C4_reference_velocity_is_min (p : PlannerParams) (ops : SplineOps) (m : MathOps)
    (route_x route_heading : PiecewisePolynomial) (rtf_s : List ℚ)
    (vx state_s route_length : ℚ) (parts : List IdmParticipant)
    (nearest : Option ℚ) :
    setup_reference_velocity p ops m route_x route_heading rtf_s vx state_s route_length parts nearest
      = (match nearest with
         | some lim =>
           min (min (min p.maximum_velocity
                 (curvature_velocity_bound p ops m route_x route_heading rtf_s vx))
               (calculate_idm_velocity p m vx state_s route_length parts)) lim
         | none =>
           min (min p.maximum_velocity
                 (curvature_velocity_bound p ops m route_x route_heading rtf_s vx))
             (calculate_idm_velocity p m vx state_s route_length parts)) ∧
    setup_reference_velocity p ops m route_x route_heading rtf_s vx state_s route_length parts nearest
      ≤ p.maximum_velocity ∧
    setup_reference_velocity p ops m route_x route_heading rtf_s vx state_s route_length parts nearest
      ≤ curvature_velocity_bound p ops m route_x route_heading rtf_s vx ∧
    setup_reference_velocity p ops m route_x route_heading rtf_s vx state_s route_length parts nearest
      ≤ calculate_idm_velocity p m vx state_s route_length parts ∧
    (∀ lim, nearest = some lim →
      setup_reference_velocity p ops m route_x route_heading rtf_s vx state_s route_length parts nearest
        ≤ lim) := by
  cases nearest with
  | none =>
    refine ⟨rfl, ?_, ?_, ?_, fun lim h => Option.noConfusion h⟩
    · exact le_trans (min_le_left _ _) (min_le_left _ _)
    · exact le_trans (min_le_left _ _) (min_le_right _ _)
    · exact min_le_right _ _
  | some lim =>
    refine ⟨rfl, ?_, ?_, ?_, ?_⟩
    · exact le_trans (min_le_left _ _) (le_trans (min_le_left _ _) (min_le_left _ _))
    · exact le_trans (min_le_left _ _) (le_trans (min_le_left _ _) (min_le_right _ _))
    · exact le_trans (min_le_left _ _) (min_le_right _ _)
    · rintro l hl
      cases hl
      exact min_le_right _ _

/-- C4 witness: the minimum property evaluated on the concrete fixtures with
a nearest map point of speed limit 3. -/
theorem C4_witness :
    setup_reference_velocity testParams testOps testMath { breaks := [0] } { breaks := [0] }
        [0, 1, 2] 1 0 100 [] (some 3)
      = (match (some 3 : Option ℚ) with
         | some lim =>
           min (min (min testParams.maximum_velocity
                 (curvature_velocity_bound testParams testOps testMath { breaks := [0] }
                   { breaks := [0] } [0, 1, 2] 1))
               (calculate_idm_velocity testParams testMath 1 0 100 [])) lim
         | none =>
           min (min testParams.maximum_velocity
                 (curvature_velocity_bound testParams testOps testMath { breaks := [0] }
                   { breaks := [0] } [0, 1, 2] 1))
             (calculate_idm_velocity testParams testMath 1 0 100 [])) ∧
    setup_reference_velocity testParams testOps testMath { breaks := [0] } { breaks := [0] }
        [0, 1, 2] 1 0 100 [] (some 3) ≤ testParams.maximum_velocity ∧
    setup_reference_velocity testParams testOps testMath { breaks := [0] } { breaks := [0] }
        [0, 1, 2] 1 0 100 [] (some 3)
      ≤ curvature_velocity_bound testParams testOps testMath { breaks := [0] } { breaks := [0] }
          [0, 1, 2] 1 ∧
    setup_reference_velocity testParams testOps testMath { breaks := [0] } { breaks := [0] }
        [0, 1, 2] 1 0 100 [] (some 3)
      ≤ calculate_idm_velocity testParams testMath 1 0 100 [] ∧
    (∀ lim, (some 3 : Option ℚ) = some lim →
      setup_reference_velocity testParams testOps testMath { breaks := [0] } { breaks := [0] }
          [0, 1, 2] 1 0 100 [] (some 3) ≤ lim) :=
  C4_reference_velocity_is_min testParams testOps testMath { breaks := [0] } { breaks := [0] }
    [0, 1, 2] 1 0 100 [] (some 3)


/-- C5: in `calculate_idm_velocity` the division `s_star / distance_for_idm`
has no zero guard and the zero-denominator case is reachable: with no traffic
participants and the ego exactly at the route end (`state_s = route_length`),
`distance_for_idm` is 0 and the returned value is exactly the source formula
with the division carried out on the zero denominator (over `ℚ` the quotient
collapses to 0; in the IEEE-double source the same expression produces an
infinity). -/
theorem C5_idm_division_by_zero_reachable :
    idm_distance_for_idm 5 5 [] = 0 ∧
    calculate_idm_velocity testParams testMath 1 5 5 []
      = max 0 (min
          (1 + testParams.max_acceleration
            * (1 - (1 / testParams.maximum_velocity) * (1 / testParams.maximum_velocity)
                 * (1 / testParams.maximum_velocity) * (1 / testParams.maximum_velocity)
               - (c5_s_star / idm_distance_for_idm 5 5 [])
                 * (c5_s_star / idm_distance_for_idm 5 5 [])))
          testParams.max_forward_speed) := by
  refine ⟨?_, ?_⟩
  · norm_num [idm_distance_for_idm, idm_distance_to_object_min, dblMax]
  · norm_num [calculate_idm_velocity, idm_distance_for_idm, idm_distance_to_object_min,
      dblMax, c5_s_star, testParams, testMath]

/-- Every sample kept by the downsampling loop exceeds the previously kept
progress by more than 0.75, starting from the loop's running `previous_s`. -/
theorem downsample_chain (state_s max_len : ℚ) :
    ∀ (center : List (ℚ × Point2d)) (prev : ℚ),
      List.Chain (fun a b => a + 0.75 < b) prev
        ((downsample state_s max_len prev center).map Prod.fst) := by
  intro center
  induction center with
  | nil =>
    intro prev
    simp [downsample]
  | cons hd tl ih =>
    intro prev
    obtain ⟨s, pt⟩ := hd
    simp only [downsample]
    split_ifs with h1 h2 h3
    · exact ih prev
    · simp
    · exact List.Chain.cons (by linarith) (ih (s - state_s))
    · exact ih prev

/-- Replacing the head of a chain from 0 by 0 keeps the chain: the tail is
still chained from 0 because the removed head was positive. -/
theorem chain_pin {t : List ℚ} {x : ℚ}
    (h : List.Chain (fun a b => a + 0.75 < b) 0 (x :: t)) :
    List.Chain (fun a b => a + 0.75 < b) 0 t := by
  cases h with
  | cons hx ht =>
    cases t with
    | nil => exact List.Chain.nil
    | cons y t2 =>
      cases ht with
      | cons hy ht2 => exact List.Chain.cons (by linarith) ht2

/-- The builder's configuration guard (source lines 293-298): when the
horizon distance is below the `min_distance_in_route` constant, the returned
Reference Path is empty. -/
theorem builder_empty_of_guard (p : PlannerParams) (ops : SplineOps) (m : MathOps)
    (center : List (ℚ × Point2d)) (state_s : ℚ) (prev : RouteToFollow) (c1 c2 : ℚ)
    (h : p.sim_time * p.max_forward_speed < p.min_distance_in_route) :
    (setup_optimizer_parameters_using_route p ops m center state_s prev c1 c2).1 = {} := by
  simp [setup_optimizer_parameters_using_route, h]

/-- The builder's sample-count guard (source lines 332-335): with fewer than
3 kept downsampled samples the returned Reference Path is empty. -/
theorem builder_empty_of_few (p : PlannerParams) (ops : SplineOps) (m : MathOps)
    (center : List (ℚ × Point2d)) (state_s : ℚ) (prev : RouteToFollow) (c1 c2 : ℚ)
    (h : (downsample state_s (p.sim_time * p.max_forward_speed) 0 center).length < 3) :
    (setup_optimizer_parameters_using_route p ops m center state_s prev c1 c2).1 = {} := by
  by_cases h1 : p.sim_time * p.max_forward_speed < p.min_distance_in_route
  · simp [setup_optimizer_parameters_using_route, h1]
  · by_cases h2 : center = []
    · simp [setup_optimizer_parameters_using_route, h1, h2]
    · simp [setup_optimizer_parameters_using_route, h1, h2, h]


/-- C6 counterexample: a route spanning at most arc length 3 — far shorter
than `sim_time * max_forward_speed = 20` — still yields a NON-empty Reference
Path, because the early rejection compares the horizon distance against the
constant `min_distance_in_route`, not against the route's length; this route
keeps 3 downsampled samples and is fitted. -/
theorem C6_counterexample :
    (∀ q ∈ shortCenterLane, q.1 ≤ 3) ∧
    (3 : ℚ) < testParams.sim_time * testParams.max_forward_speed ∧
    (setup_optimizer_parameters_using_route testParams testOps testMath
        shortCenterLane 0 {} 0 0).1.x.breaks ≠ [] := by
  refine ⟨by decide, by norm_num [testParams], ?_⟩
  norm_num [setup_optimizer_parameters_using_route, downsample, pinFirst, testParams,
    testOps, shortCenterLane]
  decide

/-- C6 (amended): the builder's early rejection is a configuration guard —
it returns an empty Reference Path when `sim_time * max_forward_speed` is
below the constant `min_distance_in_route`, irrespective of the route — and a
route (short or not) yields an empty Reference Path whenever it provides
fewer than 3 downsampled samples; the route's own length is never compared
against the horizon distance. -/
theorem C6_amended_theorem (p : PlannerParams) (ops : SplineOps) (m : MathOps)
    (center : List (ℚ × Point2d)) (state_s : ℚ) (prev : RouteToFollow) (c1 c2 : ℚ) :
    (p.sim_time * p.max_forward_speed < p.min_distance_in_route →
      (setup_optimizer_parameters_using_route p ops m center state_s prev c1 c2).1 = {}) ∧
    ((downsample state_s (p.sim_time * p.max_forward_speed) 0 center).length < 3 →
      (setup_optimizer_parameters_using_route p ops m center state_s prev c1 c2).1 = {}) :=
  ⟨builder_empty_of_guard p ops m center state_s prev c1 c2,
   builder_empty_of_few p ops m center state_s prev c1 c2⟩

/-- C6 witness: the amended statement evaluated on a two-sample route (fewer
than 3 kept samples, so the path is empty). -/
theorem C6_amended_witness :
    (testParams.sim_time * testParams.max_forward_speed < testParams.min_distance_in_route →
      (setup_optimizer_parameters_using_route testParams testOps testMath
          [(1, {}), (2, {})] 0 {} 0 0).1 = {}) ∧
    ((downsample 0 (testParams.sim_time * testParams.max_forward_speed) 0
        [(1, {}), (2, {})]).length < 3 →
      (setup_optimizer_parameters_using_route testParams testOps testMath
          [(1, {}), (2, {})] 0 {} 0 0).1 = {}) :=
  C6_amended_theorem testParams testOps testMath [(1, {}), (2, {})] 0 {} 0 0

/-- C7: for every route from which the builder keeps at least 3 downsampled
samples, the (pinned) arc-length sample sequence is consecutively more than
0.75 apart, strictly increasing, and starts at exactly 0 — and it is exactly
the `route_to_follow.s` sequence the builder returns when it reaches the
fitting stage; with fewer than 3 kept samples the builder returns an empty
Reference Path. -/
theorem C7_arclength_samples_invariant (p : PlannerParams) (ops : SplineOps) (m : MathOps)
    (center : List (ℚ × Point2d)) (state_s : ℚ) (prev : RouteToFollow) (c1 c2 : ℚ) :
    (3 ≤ (downsample state_s (p.sim_time * p.max_forward_speed) 0 center).length →
      List.Chain' (fun a b => a + 0.75 < b)
        (pinFirst ((downsample state_s (p.sim_time * p.max_forward_speed) 0 center).map Prod.fst)) ∧
      List.Pairwise (· < ·)
        (pinFirst ((downsample state_s (p.sim_time * p.max_forward_speed) 0 center).map Prod.fst)) ∧
      (pinFirst ((downsample state_s (p.sim_time * p.max_forward_speed) 0 center).map Prod.fst)).headD 1
        = 0 ∧
      (¬ p.sim_time * p.max_forward_speed < p.min_distance_in_route → center ≠ [] →
        (setup_optimizer_parameters_using_route p ops m center state_s prev c1 c2).2.s
          = pinFirst ((downsample state_s (p.sim_time * p.max_forward_speed) 0 center).map Prod.fst))) ∧
    ((downsample state_s (p.sim_time * p.max_forward_speed) 0 center).length < 3 →
      (setup_optimizer_parameters_using_route p ops m center state_s prev c1 c2).1 = {}) := by
  constructor
  · intro h3
    have hlenmap : ((downsample state_s (p.sim_time * p.max_forward_speed) 0 center).map Prod.fst).length
        = (downsample state_s (p.sim_time * p.max_forward_speed) 0 center).length :=
      List.length_map _ _
    have hch := downsample_chain state_s (p.sim_time * p.max_forward_speed) center 0
    cases hk : (downsample state_s (p.sim_time * p.max_forward_speed) 0 center).map Prod.fst with
    | nil =>
      rw [hk] at hlenmap
      simp at hlenmap
      omega
    | cons x t =>
      rw [hk] at hch
      have hchain : List.Chain' (fun a b : ℚ => a + 0.75 < b) (0 :: t) := chain_pin hch
      refine ⟨hchain, ?_, rfl, ?_⟩
      · have hlt : List.Chain' (fun a b : ℚ => a < b) (0 :: t) :=
          hchain.imp (fun a b hab => by linarith)
        exact List.chain'_iff_pairwise.mp hlt
      · intro hg hc
        have h3q : ¬ (downsample state_s (p.sim_time * p.max_forward_speed) 0 center).length < 3 := by
          omega
        simp only [setup_optimizer_parameters_using_route, List.length_map, if_neg hg, if_neg hc,
          if_neg h3q]
        split
        · rw [hk]
        · rw [hk]
  · exact builder_empty_of_few p ops m center state_s prev c1 c2

/-- C7 witness: the invariant evaluated on the concrete three-sample route. -/
theorem C7_arclength_samples_witness :
    (3 ≤ (downsample 0 (testParams.sim_time * testParams.max_forward_speed) 0 shortCenterLane).length →
      List.Chain' (fun a b => a + 0.75 < b)
        (pinFirst ((downsample 0 (testParams.sim_time * testParams.max_forward_speed) 0
          shortCenterLane).map Prod.fst)) ∧
      List.Pairwise (· < ·)
        (pinFirst ((downsample 0 (testParams.sim_time * testParams.max_forward_speed) 0
          shortCenterLane).map Prod.fst)) ∧
      (pinFirst ((downsample 0 (testParams.sim_time * testParams.max_forward_speed) 0
          shortCenterLane).map Prod.fst)).headD 1 = 0 ∧
      (¬ testParams.sim_time * testParams.max_forward_speed < testParams.min_distance_in_route →
        shortCenterLane ≠ [] →
        (setup_optimizer_parameters_using_route testParams testOps testMath
            shortCenterLane 0 {} 0 0).2.s
          = pinFirst ((downsample 0 (testParams.sim_time * testParams.max_forward_speed) 0
              shortCenterLane).map Prod.fst))) ∧
    ((downsample 0 (testParams.sim_time * testParams.max_forward_speed) 0 shortCenterLane).length < 3 →
      (setup_optimizer_parameters_using_route testParams testOps testMath
          shortCenterLane 0 {} 0 0).1 = {}) :=
  C7_arclength_samples_invariant testParams testOps testMath shortCenterLane 0 {} 0 0

/-- C9: the dynamic-model derivative computes, for every state and input,
`dV/dt = (reference_velocity - V) / tau` with `tau = 2.5` when
`reference_velocity - V > 0` and `tau = 1.25` otherwise, alongside the
kinematic-bicycle derivatives `dX/dt = V cos(heading)`,
`dY/dt = V sin(heading)`, `dheading/dt = V tan(steering_angle) / wheelbase`,
`dsteering_angle/dt = steering_rate`, `dsteering_rate/dt = input`,
`dprogress/dt = V`, and `dcost/dt` equal to the weighted squared lateral and
heading tracking errors against the reference path evaluated at the state's
progress. -/
theorem C9_dynamic_model_equations (p : PlannerParams) (ops : SplineOps) (m : MathOps)
    (route_x route_y route_heading : PiecewisePolynomial)
    (rv : ℚ) (st : ModelState) (u : ℚ) :
    (rv - st.v > 0 →
      (dynamic_model_derivative p ops m route_x route_y route_heading rv st u).v
        = (rv - st.v) / (5/2)) ∧
    (¬ rv - st.v > 0 →
      (dynamic_model_derivative p ops m route_x route_y route_heading rv st u).v
        = (rv - st.v) / (5/4)) ∧
    (dynamic_model_derivative p ops m route_x route_y route_heading rv st u).x
      = st.v * m.cosQ st.psi ∧
    (dynamic_model_derivative p ops m route_x route_y route_heading rv st u).y
      = st.v * m.sinQ st.psi ∧
    (dynamic_model_derivative p ops m route_x route_y route_heading rv st u).psi
      = st.v * m.tanQ st.delta / p.wheelbase ∧
    (dynamic_model_derivative p ops m route_x route_y route_heading rv st u).delta
      = st.dDelta ∧
    (dynamic_model_derivative p ops m route_x route_y route_heading rv st u).dDelta = u ∧
    (dynamic_model_derivative p ops m route_x route_y route_heading rv st u).s = st.v ∧
    (dynamic_model_derivative p ops m route_x route_y route_heading rv st u).l
      = (-(st.x - ops.splineEvaluation (ops.findIndex st.s route_x) st.s route_x)
           * m.sinQ (ops.splineEvaluation (ops.findIndex st.s route_x) st.s route_heading)
         + (st.y - ops.splineEvaluation (ops.findIndex st.s route_x) st.s route_y)
           * m.cosQ (ops.splineEvaluation (ops.findIndex st.s route_x) st.s route_heading)) ^ 2
          * p.lateral_weight
        + (m.atan2Q
            (-m.sinQ (ops.splineEvaluation (ops.findIndex st.s route_x) st.s route_heading)
               * m.cosQ st.psi
             + m.cosQ (ops.splineEvaluation (ops.findIndex st.s route_x) st.s route_heading)
               * m.sinQ st.psi)
            (m.cosQ (ops.splineEvaluation (ops.findIndex st.s route_x) st.s route_heading)
               * m.cosQ st.psi
             + m.sinQ (ops.splineEvaluation (ops.findIndex st.s route_x) st.s route_heading)
               * m.sinQ st.psi)) ^ 2
          * p.heading_weight := by
  refine ⟨?_, ?_, rfl, rfl, rfl, rfl, rfl, rfl, ?_⟩
  · intro h
    simp only [dynamic_model_derivative]
    rw [if_pos h]
    ring
  · intro h
    simp only [dynamic_model_derivative]
    rw [if_neg h]
    ring
  · simp only [dynamic_model_derivative]
    ring

/-- C9 witness: the model equations evaluated on the concrete fixtures at a
state with zero velocity and reference velocity 1 (the accelerating case
applies, the decelerating case is vacuous). -/
theorem C9_dynamic_model_witness :
    ((1 : ℚ) - ({} : ModelState).v > 0 →
      (dynamic_model_derivative testParams testOps testMath {} {} {} 1 {} 0).v
        = (1 - ({} : ModelState).v) / (5/2)) ∧
    (¬ (1 : ℚ) - ({} : ModelState).v > 0 →
      (dynamic_model_derivative testParams testOps testMath {} {} {} 1 {} 0).v
        = (1 - ({} : ModelState).v) / (5/4)) ∧
    (dynamic_model_derivative testParams testOps testMath {} {} {} 1 {} 0).x
      = ({} : ModelState).v * testMath.cosQ ({} : ModelState).psi ∧
    (dynamic_model_derivative testParams testOps testMath {} {} {} 1 {} 0).y
      = ({} : ModelState).v * testMath.sinQ ({} : ModelState).psi ∧
    (dynamic_model_derivative testParams testOps testMath {} {} {} 1 {} 0).psi
      = ({} : ModelState).v * testMath.tanQ ({} : ModelState).delta / testParams.wheelbase ∧
    (dynamic_model_derivative testParams testOps testMath {} {} {} 1 {} 0).delta
      = ({} : ModelState).dDelta ∧
    (dynamic_model_derivative testParams testOps testMath {} {} {} 1 {} 0).dDelta = 0 ∧
    (dynamic_model_derivative testParams testOps testMath {} {} {} 1 {} 0).s
      = ({} : ModelState).v ∧
    (dynamic_model_derivative testParams testOps testMath {} {} {} 1 {} 0).l
      = (-(({} : ModelState).x - testOps.splineEvaluation
             (testOps.findIndex ({} : ModelState).s {}) ({} : ModelState).s {})
           * testMath.sinQ (testOps.splineEvaluation
             (testOps.findIndex ({} : ModelState).s {}) ({} : ModelState).s {})
         + (({} : ModelState).y - testOps.splineEvaluation
             (testOps.findIndex ({} : ModelState).s {}) ({} : ModelState).s {})
           * testMath.cosQ (testOps.splineEvaluation
             (testOps.findIndex ({} : ModelState).s {}) ({} : ModelState).s {})) ^ 2
          * testParams.lateral_weight
        + (testMath.atan2Q
            (-testMath.sinQ (testOps.splineEvaluation
                (testOps.findIndex ({} : ModelState).s {}) ({} : ModelState).s {})
               * testMath.cosQ ({} : ModelState).psi
             + testMath.cosQ (testOps.splineEvaluation
                (testOps.findIndex ({} : ModelState).s {}) ({} : ModelState).s {})
               * testMath.sinQ ({} : ModelState).psi)
            (testMath.cosQ (testOps.splineEvaluation
                (testOps.findIndex ({} : ModelState).s {}) ({} : ModelState).s {})
               * testMath.cosQ ({} : ModelState).psi
             + testMath.sinQ (testOps.splineEvaluation
                (testOps.findIndex ({} : ModelState).s {}) ({} : ModelState).s {})
               * testMath.sinQ ({} : ModelState).psi)) ^ 2
          * testParams.heading_weight :=
  C9_dynamic_model_equations testParams testOps testMath {} {} {} 1 {} 0

/-- C10: the wall-clock readings taken during a planning cycle are never
used in any output or state update — two `plan_trajectory` calls (and two
reference-builder calls) with identical inputs, identical persistent state
and identical solver behavior but different clock readings return identical
results and leave identical persistent state. -/
theorem C10_clock_noninterference (p : PlannerParams) (st : PlannerState)
    (rr : route_to_piecewise_polynomial) (nrv : ℚ) (sol : SolverOutput)
    (ops : SplineOps) (m : MathOps) (center : List (ℚ × Point2d)) (state_s : ℚ)
    (prev : RouteToFollow) (c1 c2 c1' c2' b1 b2 b1' b2' : ℚ) :
    plan_trajectory p st rr nrv sol c1 c2 = plan_trajectory p st rr nrv sol c1' c2' ∧
    setup_optimizer_parameters_using_route p ops m center state_s prev b1 b2
      = setup_optimizer_parameters_using_route p ops m center state_s prev b1' b2' :=
  ⟨rfl, rfl⟩

/-- Elements of the extraction base list before the final-sample fix-up. -/
theorem base_getD (p : PlannerParams) (sol : SolverOutput) (i : Nat)
    (d : VehicleStateDynamic) (h : i < p.control_points) :
    ((List.range p.control_points).map (extractSample p sol)).getD i d = extractSample p sol i := by
  rw [List.getD_eq_getElem?_getD, List.getElem?_map, List.getElem?_range h]
  rfl

/-- `fixLast` changes no sample other than the last one. -/
theorem fixLast_getD_ne (l : List VehicleStateDynamic) (i : Nat)
    (h : i ≠ l.length - 1) :
    (fixLast l).getD i default = l.getD i default := by
  unfold fixLast
  split
  · rw [List.getD_eq_getElem?_getD, List.getElem?_set_ne (fun he => h he.symm),
      List.getD_eq_getElem?_getD]
  · rfl

/-- `getD` agrees with a successful `get?`. -/
theorem getD_of_get? (l : List VehicleStateDynamic) (j : Nat) (a : VehicleStateDynamic)
    (h : l.get? j = some a) : l.getD j default = a := by
  rw [List.getD_eq_getElem?_getD, ← List.get?_eq_getElem?, h]
  rfl

/-- A successful `get?` witnesses an in-range index. -/
theorem lt_of_get? (l : List VehicleStateDynamic) (j : Nat) (a : VehicleStateDynamic)
    (h : l.get? j = some a) : j < l.length := by
  by_contra hn
  rw [List.get?_eq_none.mpr (Nat.le_of_not_lt hn)] at h
  exact Option.noConfusion h

/-- `fixLast` preserves every sample's timestamp (the fix-up only rewrites
the derived rates). -/
theorem fixLast_time_getD (l : List VehicleStateDynamic) (i : Nat) :
    ((fixLast l).getD i default).time = (l.getD i default).time := by
  unfold fixLast
  split
  case _ s2 sl h1 h2 =>
    by_cases hi : i = l.length - 1
    · subst hi
      have hlt : l.length - 1 < l.length := lt_of_get? l _ sl h2
      rw [List.getD_eq_getElem?_getD, List.getElem?_set_eq_of_lt _ hlt]
      rw [getD_of_get? l _ sl h2]
      rfl
    · rw [List.getD_eq_getElem?_getD, List.getElem?_set_ne (fun he => hi he.symm),
        List.getD_eq_getElem?_getD]
  case _ => rfl

/-- After the fix-up, the last sample's derived rates equal the
second-to-last base sample's. -/
theorem fixLast_rates (l : List VehicleStateDynamic) (h2 : 2 ≤ l.length) :
    ((fixLast l).getD (l.length - 1) default).yaw_rate
      = (l.getD (l.length - 2) default).yaw_rate ∧
    ((fixLast l).getD (l.length - 1) default).ax = (l.getD (l.length - 2) default).ax := by
  unfold fixLast
  split
  case _ s2 sl hg1 hg2 =>
    have hlt : l.length - 1 < l.length := lt_of_get? l _ sl hg2
    rw [List.getD_eq_getElem?_getD, List.getElem?_set_eq_of_lt _ hlt,
      getD_of_get? l _ s2 hg1]
    exact ⟨rfl, rfl⟩
  case _ hg =>
    exfalso
    have ha : l.length - 2 < l.length := by omega
    have hb : l.length - 1 < l.length := by omega
    rcases List.get?_eq_get ha with h1
    rcases List.get?_eq_get hb with h1b
    exact hg _ _ h1 h1b

/-- The extracted trajectory satisfies the shape invariant whenever the
horizon has at least 2 control points, the time step is positive, and the
solver's time samples lie on the spec-modelled uniform grid. -/
theorem extract_TrajOK (p : PlannerParams) (sol : SolverOutput) (t0 : ℚ)
    (h2 : 2 ≤ p.control_points) (hdt : 0 < optTimeStep p)
    (htime : ∀ i, sol.time i = solverTimeGrid p t0 i) :
    TrajOK p (extractTrajectory p sol) := by
  have hbaselen : ((List.range p.control_points).map (extractSample p sol)).length
      = p.control_points := by simp
  have hlen : (extractTrajectory p sol).states.length = p.control_points :=
    extractTrajectory_length p sol
  have htimei : ∀ i, i < p.control_points →
      ((extractTrajectory p sol).states.getD i default).time = solverTimeGrid p t0 i := by
    intro i hi
    show ((fixLast ((List.range p.control_points).map (extractSample p sol))).getD i
      default).time = _
    rw [fixLast_time_getD, base_getD p sol i default hi]
    exact htime i
  refine ⟨hlen, ?_, ?_, ?_⟩
  · intro i hi
    rw [hlen] at hi
    rw [htimei i (by omega), htimei (i + 1) hi]
    constructor
    · simp only [solverTimeGrid]
      push_cast
      ring
    · simp only [solverTimeGrid]
      have : ((i : ℚ)) * optTimeStep p < ((i : ℚ) + 1) * optTimeStep p := by
        nlinarith
      push_cast
      linarith
  · show ((fixLast _).getD _ default).yaw_rate = ((fixLast _).getD _ default).yaw_rate
    rw [hlen]
    have hb2 : 2 ≤ ((List.range p.control_points).map (extractSample p sol)).length := by
      omega
    have hr := (fixLast_rates _ hb2).1
    rw [hbaselen] at hr
    rw [hr, fixLast_getD_ne _ _ (by rw [hbaselen]; omega)]
  · show ((fixLast _).getD _ default).ax = ((fixLast _).getD _ default).ax
    rw [hlen]
    have hb2 : 2 ≤ ((List.range p.control_points).map (extractSample p sol)).length := by
      omega
    have hr := (fixLast_rates _ hb2).2
    rw [hbaselen] at hr
    rw [hr, fixLast_getD_ne _ _ (by rw [hbaselen]; omega)]

/-- C8: every non-empty trajectory produced by `plan_trajectory` has exactly
`control_points` samples, timestamps strictly increasing and spaced by the
configured time step, and a final sample whose yaw rate and acceleration
equal the second-to-last sample's — under a positive time step, at least 2
control points, solver timestamps on the spec-modelled uniform grid, and a
stored fallback that is itself empty or well-shaped (the invariant is also
shown to be preserved on the stored fallback). -/
theorem C8_trajectory_shape (p : PlannerParams) (st : PlannerState)
    (rr : route_to_piecewise_polynomial) (nrv : ℚ) (sol : SolverOutput) (c1 c2 t0 : ℚ)
    (h2 : 2 ≤ p.control_points) (hdt : 0 < optTimeStep p)
    (htime : ∀ i, sol.time i = solverTimeGrid p t0 i)
    (hprev : st.previous_trajectory.states = [] ∨ TrajOK p st.previous_trajectory) :
    ((plan_trajectory p st rr nrv sol c1 c2).1.states ≠ [] →
      TrajOK p (plan_trajectory p st rr nrv sol c1 c2).1) ∧
    ((plan_trajectory p st rr nrv sol c1 c2).2.previous_trajectory.states = [] ∨
      TrajOK p (plan_trajectory p st rr nrv sol c1 c2).2.previous_trajectory) := by
  by_cases hroute : rr.x.breaks = []
  · rw [plan_trajectory_noRoute p st rr nrv sol c1 c2 hroute]
    exact ⟨fun h => absurd rfl h, hprev⟩
  · cases hbad : badCondition p sol with
    | true =>
      rw [plan_trajectory_bad p st rr nrv sol c1 c2 hroute hbad]
      refine ⟨fun hne => ?_, hprev⟩
      cases hprev with
      | inl h => exact absurd h hne
      | inr h => exact h
    | false =>
      rw [plan_trajectory_good p st rr nrv sol c1 c2 hroute hbad]
      have hok := extract_TrajOK p sol t0 h2 hdt htime
      exact ⟨fun _ => hok, Or.inr hok⟩

/-- C8 witness: the shape invariant evaluated on the concrete fixtures with
the grid-timed accepted solver output. -/
theorem C8_trajectory_shape_witness :
    ((plan_trajectory testParams {} refRouteNonempty 0 solverGridGood 0 0).1.states ≠ [] →
      TrajOK testParams (plan_trajectory testParams {} refRouteNonempty 0 solverGridGood 0 0).1) ∧
    ((plan_trajectory testParams {} refRouteNonempty 0 solverGridGood 0 0).2.previous_trajectory.states
        = [] ∨
      TrajOK testParams
        (plan_trajectory testParams {} refRouteNonempty 0 solverGridGood 0 0).2.previous_trajectory) :=
  C8_trajectory_shape testParams {} refRouteNonempty 0 solverGridGood 0 0 5
    (by decide) (by norm_num [optTimeStep, testParams]) (fun i => rfl) (Or.inl rfl)
